import Mathlib

/-!
Shallow embedding of the editor state machine in
`src/ratatui-experiment/src/state.rs` (the canonical `State` variant).

Strings are modelled as `List Char`.  Rust's `String.insert`/`String.remove`
take *byte* indices and panic when the index is out of bounds or not on a
UTF-8 character boundary; we model them as `byteInsert`/`byteRemove`
returning `Option`, with `none` meaning a panic.  The filesystem is an
explicit oracle (`FileSystem`) passed alongside the state in a `World`;
`fs.files p = some c` means reading path `p` succeeds with contents `c`,
`fs.writeErr p = some e` means writing to `p` fails with I/O error text `e`.
-/

namespace Editor

/-- Number of bytes in the UTF-8 encoding of a character, as Rust's
`char::len_utf8`. -/
def utf8Size (c : Char) : Nat :=
  if c.toNat < 0x80 then 1
  else if c.toNat < 0x800 then 2
  else if c.toNat < 0x10000 then 3
  else 4

/-- Rust `String::insert(i, c)` at byte index `i`: `none` models the panic
when `i` is out of bounds or not on a character boundary. -/
def byteInsert : List Char → Nat → Char → Option (List Char)
  | s, 0, c => some (c :: s)
  | [], _ + 1, _ => none
  | d :: s, i + 1, c =>
    if i + 1 < utf8Size d then none
    else (byteInsert s (i + 1 - utf8Size d) c).map (fun t => d :: t)

/-- Rust `String::remove(i)` at byte index `i`: `none` models the panic when
`i` is out of bounds or not on a character boundary. -/
def byteRemove : List Char → Nat → Option (List Char)
  | [], _ => none
  | _ :: s, 0 => some s
  | d :: s, i + 1 =>
    if i + 1 < utf8Size d then none
    else (byteRemove s (i + 1 - utf8Size d)).map (fun t => d :: t)

/-- `enum InputDestination` from state.rs (the spec's `mode`): `Buffer` is
`Editing`, `Open` is `PromptOpen`, `Save` is `PromptSave`. -/
inductive InputDestination where
  | Buffer
  | Open
  | Save
deriving DecidableEq, Repr

/-- `enum Input` from state.rs. -/
inductive Input where
  | None
  | Backspace
  | Enter
  | Cancel
  | NormalChar (c : Char)
  | Save
  | Open
  | New
  | ClearMessage
  | MoveLeft
  | MoveRight
deriving DecidableEq, Repr

/-- `enum EditorError` from state.rs; `IoError` carries the formatted text of
the underlying `io::Error`. -/
inductive EditorError where
  | NoFileSpecified
  | IoError (msg : List Char)
deriving DecidableEq, Repr

/-- `impl Display for EditorError` (`err.to_string()`). -/
def errText : EditorError → List Char
  | .NoFileSpecified => "No file specified".toList
  | .IoError msg => "IO error: ".toList ++ msg

/-- `struct State` from state.rs. -/
structure State where
  current_file_name : Option (List Char)
  open_file_name : Option (List Char)
  input_destination : InputDestination
  file_contents : List Char
  messages : List (List Char)
  message_visible : Bool
  exited : Bool
  cursor : Nat
deriving DecidableEq, Repr

/-- `impl Default for State`. -/
def initState : State :=
  { current_file_name := none
    open_file_name := none
    input_destination := .Buffer
    file_contents := []
    messages := []
    message_visible := false
    exited := false
    cursor := 0 }

/-- Filesystem oracle for `fs::read_to_string` / `fs::write`. -/
structure FileSystem where
  files : List Char → Option (List Char)
  readErr : List Char → List Char
  writeErr : List Char → Option (List Char)

/-- Effect of a successful `fs::write path contents` on the oracle. -/
def writeFS (fs : FileSystem) (path contents : List Char) : FileSystem :=
  { fs with files := fun p => if p = path then some contents else fs.files p }

/-- The editor state together with the filesystem it acts on. -/
structure World where
  state : State
  fs : FileSystem

/-- `State::move_cursor_left` (`saturating_sub`). -/
def move_cursor_left (s : State) : State :=
  { s with cursor := s.cursor - 1 }

/-- `State::move_cursor_right`: saturating increment capped at
`file_contents.chars().count()`, i.e. the character count. -/
def move_cursor_right (s : State) : State :=
  { s with cursor := min (s.cursor + 1) s.file_contents.length }

/-- `State::backspace`; `none` models a panic in `String::remove`. -/
def backspace (s : State) : Option State :=
  match s.input_destination with
  | .Buffer =>
    if s.cursor > 0 then
      let s1 := move_cursor_left s
      (byteRemove s1.file_contents s1.cursor).map
        (fun fc => { s1 with file_contents := fc })
    else some s
  | .Open =>
    some { s with open_file_name := s.open_file_name.map List.dropLast }
  | .Save =>
    some { s with current_file_name := s.current_file_name.map List.dropLast }

/-- `State::add_char`; `none` models a panic in `String::insert`. -/
def add_char (s : State) (c : Char) : Option State :=
  match s.input_destination with
  | .Buffer =>
    (byteInsert s.file_contents s.cursor c).map
      (fun fc => move_cursor_right { s with file_contents := fc })
  | .Open =>
    some { s with open_file_name := some (s.open_file_name.getD [] ++ [c]) }
  | .Save =>
    some { s with current_file_name := some (s.current_file_name.getD [] ++ [c]) }

/-- `State::add_message`. -/
def add_message (s : State) (msg : List Char) : State :=
  { s with messages := s.messages ++ [msg], message_visible := true }

/-- `State::clear_message`. -/
def clear_message (s : State) : State :=
  { s with message_visible := false }

/-- `State::latest_message`. -/
def latest_message (s : State) : Option (List Char) :=
  if s.message_visible then s.messages.getLast? else none

/-- `State::new_file`: clears the buffer and the file association.  Note the
source does not touch `cursor`. -/
def new_file (s : State) : State :=
  { s with file_contents := [], current_file_name := none }

/-- `State::save_file`: writes the buffer to `current_file_name`; returns the
(possibly fs-updated) world plus an optional error, mirroring the `?`
early returns. -/
def save_file (w : World) : World × Option EditorError :=
  match w.state.current_file_name with
  | none => (w, some .NoFileSpecified)
  | some path =>
    match w.fs.writeErr path with
    | some e => (w, some (.IoError e))
    | none => ({ w with fs := writeFS w.fs path w.state.file_contents }, none)

/-- `State::open_file`: `open_file_name.take()` clears the pending name even
when the subsequent read fails; the source does not touch `cursor`. -/
def open_file (w : World) : World × Option EditorError :=
  match w.state.open_file_name with
  | none => (w, some .NoFileSpecified)
  | some path =>
    let w1 : World := { w with state := { w.state with open_file_name := none } }
    match w.fs.files path with
    | none => (w1, some (.IoError (w.fs.readErr path)))
    | some contents =>
      ({ w1 with state := { w1.state with
          file_contents := contents, current_file_name := some path } }, none)

/-- `State::enter`; `none` models a panic from `add_char`.  In the prompt
modes the destination is reset to `Buffer` and the message visibility is
cleared after the file operation, whatever its result. -/
def enter (w : World) : Option (World × Option EditorError) :=
  match w.state.input_destination with
  | .Buffer =>
    (add_char w.state '\n').map (fun s => ({ w with state := s }, none))
  | .Save =>
    let r := save_file w
    let s1 := clear_message { r.1.state with input_destination := .Buffer }
    some ({ r.1 with state := s1 }, r.2)
  | .Open =>
    let r := open_file w
    let s1 := clear_message { r.1.state with input_destination := .Buffer }
    some ({ r.1 with state := s1 }, r.2)

/-- `State::accept_input`, the single entry point; `none` models a panic. -/
def accept_input (w : World) : Input → Option World
  | .None => some w
  | .Backspace => (backspace w.state).map (fun s => { w with state := s })
  | .Enter =>
    (enter w).map (fun r =>
      match r.2 with
      | none => r.1
      | some err => { r.1 with state := add_message r.1.state (errText err) })
  | .Cancel => some { w with state := { w.state with exited := true } }
  | .NormalChar c => (add_char w.state c).map (fun s => { w with state := s })
  | .Save => some { w with state := { w.state with input_destination := .Save } }
  | .Open => some { w with state := { w.state with input_destination := .Open } }
  | .New => some { w with state := new_file w.state }
  | .ClearMessage => some { w with state := clear_message w.state }
  | .MoveLeft => some { w with state := move_cursor_left w.state }
  | .MoveRight => some { w with state := move_cursor_right w.state }

/-- Driver loop: apply a sequence of inputs; `none` as soon as any step
panics. -/
def runInputs (w : World) : List Input → Option World
  | [] => some w
  | i :: rest =>
    match accept_input w i with
    | none => none
    | some w1 => runInputs w1 rest

/-- A filesystem with no readable files and all writes succeeding. -/
def emptyFS : FileSystem :=
  { files := fun _ => none
    readErr := fun _ => "file not found".toList
    writeErr := fun _ => none }

/-- The world at startup over a given filesystem oracle. -/
def initWorld (fs : FileSystem) : World :=
  { state := initState, fs := fs }

/-- The inputs routed to the document buffer while in `Editing` mode:
`InsertChar` and `Backspace`. -/
def isEditInput : Input → Bool
  | .Backspace => true
  | .NormalChar _ => true
  | _ => false

/-- A filesystem holding one file `"f"` with contents `"hi"`. -/
def shortFileFS : FileSystem :=
  { files := fun p => if p = ['f'] then some ['h', 'i'] else none
    readErr := fun _ => "file not found".toList
    writeErr := fun _ => none }

/-- A filesystem on which writing to the empty path fails, as it does on a
real filesystem. -/
def emptyPathFailFS : FileSystem :=
  { files := fun _ => none
    readErr := fun _ => "file not found".toList
    writeErr := fun p => if p = [] then some "cannot write".toList else none }

/-- The world reached from startup by typing `a`, `b` and one backspace. -/
def c2witResult : World :=
  { state :=
    { current_file_name := none
      open_file_name := none
      input_destination := .Buffer
      file_contents := ['a']
      messages := []
      message_visible := false
      exited := false
      cursor := 1 }
    fs := emptyFS }

/-- A world in `Save` prompt mode with pending name `"a"` and buffer `"h"`. -/
def c6wA : World :=
  ⟨{ initState with
      input_destination := .Save
      current_file_name := some ['a']
      file_contents := ['h'] }, emptyFS⟩

/-- A world in `Save` prompt mode with no pending file name. -/
def c6wB : World :=
  ⟨{ initState with input_destination := .Save }, emptyFS⟩

/-- A world in `Open` prompt mode asking for the unreadable file `"f"`. -/
def c7w : World :=
  ⟨{ initState with
      input_destination := .Open
      open_file_name := some ['f']
      file_contents := ['h', 'i'] }, emptyFS⟩

/-- A world in `Save` prompt mode with both name fields `"f"` and buffer
`"hi"`. -/
def c8w : World :=
  ⟨{ initState with
      input_destination := .Save
      current_file_name := some ['f']
      open_file_name := some ['f']
      file_contents := ['h', 'i'] }, emptyFS⟩

/-- A world in `Save` prompt mode with pending name `"ab"`. -/
def c10w : World :=
  ⟨{ initState with
      input_destination := .Save
      current_file_name := some ['a', 'b'] }, emptyFS⟩

/-- A successful `byteRemove` removes exactly one character. -/
lemma byteRemove_length (s : List Char) (i : Nat) (t : List Char)
    (h : byteRemove s i = some t) : s.length = t.length + 1 := by
  induction s generalizing i t with
  | nil => simp [byteRemove] at h
  | cons d s ih =>
    cases i with
    | zero =>
      simp [byteRemove] at h
      simp [← h]
    | succ n =>
      rw [byteRemove] at h
      split at h
      · exact absurd h (by simp)
      · obtain ⟨u, hu, ht⟩ := Option.map_eq_some'.mp h
        simp [← ht, ih _ _ hu]

/-- The buffer-editing inputs are exactly `Backspace` and `NormalChar`. -/
lemma isEditInput_cases (i : Input) (h : isEditInput i = true) :
    (i = Input.Backspace) ∨ (∃ c, i = Input.NormalChar c) := by
  cases i <;> simp_all [isEditInput]

/-- One non-panicking `InsertChar` or `Backspace` step in `Editing` mode
keeps the mode and keeps the cursor within the character count. -/
lemma edit_step (w : World) (i : Input) (w1 : World)
    (hdest : w.state.input_destination = .Buffer)
    (hcur : w.state.cursor ≤ w.state.file_contents.length)
    (hi : (i = Input.Backspace) ∨ (∃ c, i = Input.NormalChar c))
    (hstep : accept_input w i = some w1) :
    w1.state.input_destination = .Buffer ∧
      w1.state.cursor ≤ w1.state.file_contents.length := by
  rcases hi with hb | ⟨c, hc⟩
  · subst hb
    simp only [accept_input] at hstep
    obtain ⟨s, hsome, hw1⟩ := Option.map_eq_some'.mp hstep
    simp only [backspace, hdest] at hsome
    split at hsome
    · obtain ⟨fc, hfc, hs⟩ := Option.map_eq_some'.mp hsome
      have hlen := byteRemove_length _ _ _ hfc
      subst hs
      rw [← hw1]
      simp only [move_cursor_left] at hlen ⊢
      refine ⟨hdest, ?_⟩
      simp at hlen ⊢
      omega
    · rw [← hw1]
      cases hsome
      exact ⟨hdest, hcur⟩
  · subst hc
    simp only [accept_input] at hstep
    obtain ⟨s, hsome, hw1⟩ := Option.map_eq_some'.mp hstep
    simp only [add_char, hdest] at hsome
    obtain ⟨fc, hfc, hs⟩ := Option.map_eq_some'.mp hsome
    subst hs
    rw [← hw1]
    exact ⟨rfl, by simp [move_cursor_right]⟩

/-- Claim C1: in `PromptOpen` mode with a pending path, a successful `Enter`
replaces the document, sets `current_file_path`, and returns to `Editing` —
but, contrary to the claim, `open_file` never resets the cursor: after
typing three characters (cursor 3) and opening the two-character file `"f"`,
the cursor is still 3, not 0, and now lies past the end of the document. -/
theorem c1_open_file_leaves_cursor :
    (runInputs (initWorld shortFileFS)
        [.NormalChar 'a', .NormalChar 'b', .NormalChar 'c', .Open,
          .NormalChar 'f', .Enter]).map World.state =
      some { current_file_name := some ['f']
             open_file_name := none
             input_destination := .Buffer
             file_contents := ['h', 'i']
             messages := []
             message_visible := false
             exited := false
             cursor := 3 } := by decide

/-- Claim C2, counterexample to the unrestricted invariant: starting from the
initial state, typing three characters and then successfully opening the
shorter file `"f"` leaves `cursor = 3` while the document has length 2, so
the cursor is no longer a valid insertion point. -/
theorem c2_cursor_can_pass_end :
    (runInputs (initWorld shortFileFS)
        [.NormalChar 'a', .NormalChar 'b', .NormalChar 'c', .Open,
          .NormalChar 'f', .Enter]).map
        (fun w => (w.state.cursor, w.state.file_contents.length,
          decide (w.state.cursor ≤ w.state.file_contents.length))) =
      some (3, 2, false) := by decide

/-- Claim C2, amended: for every state in `Editing` mode whose cursor is
within bounds, every non-panicking sequence of `InsertChar` and `Backspace`
inputs keeps `cursor` within `[0, length(document)]`.  (The lower bound is
automatic for `Nat`.) -/
theorem c2_editing_cursor_invariant (w : World) (inputs : List Input) (w2 : World)
    (hdest : w.state.input_destination = .Buffer)
    (hcur : w.state.cursor ≤ w.state.file_contents.length)
    (hedit : ∀ i ∈ inputs, isEditInput i = true)
    (hrun : runInputs w inputs = some w2) :
    w2.state.cursor ≤ w2.state.file_contents.length := by
  induction inputs generalizing w with
  | nil =>
    rw [runInputs] at hrun
    cases hrun
    exact hcur
  | cons i rest ih =>
    rw [runInputs] at hrun
    cases hstep : accept_input w i with
    | none => rw [hstep] at hrun; cases hrun
    | some w1 =>
      rw [hstep] at hrun
      obtain ⟨hd1, hc1⟩ := edit_step w i w1 hdest hcur
        (isEditInput_cases i (hedit i (by simp))) hstep
      exact ih w1 hd1 hc1 (fun j hj => hedit j (List.mem_cons_of_mem _ hj)) hrun

/-- Claim C2, witness: typing `a`, `b` and one backspace from startup is a
non-panicking editing run, and the resulting cursor is within bounds. -/
theorem c2_editing_cursor_invariant_witness :
    (runInputs (initWorld emptyFS) [Input.NormalChar 'a', Input.NormalChar 'b',
        Input.Backspace] = some c2witResult) ∧
      c2witResult.state.cursor ≤ c2witResult.state.file_contents.length :=
  ⟨rfl, c2_editing_cursor_invariant (initWorld emptyFS)
    [Input.NormalChar 'a', Input.NormalChar 'b', Input.Backspace] c2witResult rfl
    (by decide) (by decide) rfl⟩

/-- Claim C3: `accept_input` is not panic-free.  Inserting the two-byte
character `é` from the initial state succeeds and leaves `cursor = 1`
(capped by the character count), but `String::insert` uses the cursor as a
byte index, so the next `InsertChar` panics on a non-boundary index — the
run evaluates to `none` (our model of a panic). -/
theorem c3_insert_multibyte_panics :
    (runInputs (initWorld emptyFS) [.NormalChar 'é']).isSome = true ∧
      (runInputs (initWorld emptyFS)
        [.NormalChar 'é', .NormalChar 'x']).isNone = true := by decide

/-- Claim C4: `BeginNewFile` empties the document and clears the file
association, but, contrary to the claim, `new_file` never resets the
cursor: after typing two characters it remains 2, and a subsequent
`InsertChar` into the now-empty buffer panics (evaluates to `none`). -/
theorem c4_new_file_keeps_cursor :
    ((runInputs (initWorld emptyFS)
        [.NormalChar 'h', .NormalChar 'i', .New]).map World.state =
      some { current_file_name := none
             open_file_name := none
             input_destination := .Buffer
             file_contents := []
             messages := []
             message_visible := false
             exited := false
             cursor := 2 }) ∧
      (runInputs (initWorld emptyFS)
        [.NormalChar 'h', .NormalChar 'i', .New, .NormalChar 'z']).isNone = true := by
  decide

/-- Claim C5, counterexample: entering a prompt mode resets nothing.  After
`BeginOpen`, `Enter` (which records the "No file specified" message) and
`BeginOpen` again, the message is still visible; and after `BeginOpen`,
typing `x`, `BeginSave` and `BeginOpen`, the pending open path is still
`"x"` rather than empty. -/
theorem c5_begin_open_does_not_reset :
    ((runInputs (initWorld emptyFS) [.Open, .Enter, .Open]).map
        (fun w => (w.state.input_destination, w.state.message_visible)) =
      some (.Open, true)) ∧
      ((runInputs (initWorld emptyFS) [.Open, .NormalChar 'x', .Save, .Open]).map
        (fun w => (w.state.input_destination, w.state.open_file_name)) =
      some (.Open, some ['x'])) := by decide

/-- Claim C5, amended: `BeginOpen` sets the mode to `PromptOpen` and changes
no other field — in particular it neither clears the pending path nor
dismisses a visible message. -/
theorem c5_begin_open_only_sets_mode (w : World) :
    accept_input w .Open =
      some { w with state := { w.state with input_destination := .Open } } := rfl

/-- Claim C6, counterexample: with pending path `Some("")` (reached by
`BeginSave`, typing `a`, one backspace), `Enter` attempts the write to the
empty path and records its I/O error, not `"No file specified"` — the code
branches on `None` versus `Some`, not on emptiness. -/
theorem c6_empty_path_gives_io_error :
    ((runInputs (initWorld emptyPathFailFS)
        [.Save, .NormalChar 'a', .Backspace, .Enter]).map
        (fun w => (latest_message w.state, w.state.input_destination)) =
      some (some "IO error: cannot write".toList, .Buffer)) ∧
      "IO error: cannot write".toList ≠ "No file specified".toList := by decide

/-- Claim C6, amended: in `PromptSave` mode, `Enter` with a set pending path
(`current_file_name = some p`, even when `p` is the empty string) writes the
document to `p` and returns to `Editing` with the message cleared, the file
association (the same field as the pending path) still `p`; `Enter` with no
pending path records `"No file specified"` and returns to `Editing`. -/
theorem c6_save_enter (w : World) (p : List Char)
    (hdest : w.state.input_destination = .Save) :
    (w.state.current_file_name = some p → w.fs.writeErr p = none →
      accept_input w .Enter =
        some ⟨{ w.state with input_destination := .Buffer, message_visible := false },
          writeFS w.fs p w.state.file_contents⟩) ∧
    (w.state.current_file_name = none →
      (accept_input w .Enter).map
          (fun w2 => (latest_message w2.state, w2.state.input_destination)) =
        some (some "No file specified".toList, .Buffer)) := by
  constructor
  · intro hsome hok
    simp [accept_input, enter, save_file, hdest, hsome, hok, clear_message]
  · intro hnone
    simp [accept_input, enter, save_file, hdest, hnone, clear_message,
      add_message, latest_message, errText]

/-- Claim C6, witness: both branches of `c6_save_enter` at concrete worlds —
a save with pending name `"a"` and a save with no pending name. -/
theorem c6_save_enter_witness :
    (accept_input c6wA .Enter =
      some ⟨{ c6wA.state with input_destination := .Buffer, message_visible := false },
        writeFS c6wA.fs ['a'] c6wA.state.file_contents⟩) ∧
      ((accept_input c6wB .Enter).map
          (fun w2 => (latest_message w2.state, w2.state.input_destination)) =
        some (some "No file specified".toList, .Buffer)) :=
  ⟨(c6_save_enter c6wA ['a'] rfl).1 rfl rfl, (c6_save_enter c6wB ['a'] rfl).2 rfl⟩

/-- Claim C7: in `PromptOpen` mode, when the read of the pending path fails,
`Enter` records `"IO error: "` followed by the error text as the latest
visible message, leaves the document unchanged, returns the mode to
`Editing`, and leaves `exited` false — the session continues. -/
theorem c7_open_failure_keeps_session (w : World) (p : List Char)
    (hdest : w.state.input_destination = .Open)
    (hpend : w.state.open_file_name = some p)
    (hread : w.fs.files p = none)
    (hexit : w.state.exited = false) :
    (accept_input w .Enter).map
        (fun w2 => (latest_message w2.state, w2.state.file_contents,
          w2.state.input_destination, w2.state.exited)) =
      some (some ("IO error: ".toList ++ w.fs.readErr p),
        w.state.file_contents, .Buffer, false) := by
  simp [accept_input, enter, open_file, hdest, hpend, hread, hexit,
    clear_message, add_message, latest_message, errText]

/-- Claim C7, witness: opening the unreadable file `"f"` from a concrete
world in `PromptOpen` mode. -/
theorem c7_open_failure_keeps_session_witness :
    c7w.state.input_destination = .Open ∧ c7w.fs.files ['f'] = none ∧
      (accept_input c7w .Enter).map
          (fun w2 => (latest_message w2.state, w2.state.file_contents,
            w2.state.input_destination, w2.state.exited)) =
        some (some ("IO error: ".toList ++ c7w.fs.readErr ['f']),
          c7w.state.file_contents, .Buffer, false) :=
  ⟨rfl, rfl, c7_open_failure_keeps_session c7w ['f'] rfl rfl rfl rfl⟩

/-- Claim C8: round-trip — from `PromptSave` mode with the same path pending
in both name fields, a successful save (`Enter`), then `BeginOpen` and
`Enter` to reopen that path, reproduces exactly the document that was
saved. -/
theorem c8_save_open_round_trip (w : World) (p : List Char)
    (hdest : w.state.input_destination = .Save)
    (hcur : w.state.current_file_name = some p)
    (hpend : w.state.open_file_name = some p)
    (hw : w.fs.writeErr p = none) :
    (runInputs w [.Enter, .Open, .Enter]).map (fun w2 => w2.state.file_contents) =
      some w.state.file_contents := by
  simp [runInputs, accept_input, enter, save_file, open_file, writeFS,
    hdest, hcur, hpend, hw, clear_message]

/-- Claim C8, witness: saving the buffer `"hi"` to `"f"` and reopening it
from a concrete world. -/
theorem c8_save_open_round_trip_witness :
    c8w.state.current_file_name = some ['f'] ∧
      (runInputs c8w [.Enter, .Open, .Enter]).map
          (fun w2 => w2.state.file_contents) =
        some c8w.state.file_contents :=
  ⟨rfl, c8_save_open_round_trip c8w ['f'] rfl rfl rfl rfl⟩

/-- Claim C9: `DismissMessage` applied once or any number of further times
leaves `message_visible = false` and the message log unchanged. -/
theorem c9_dismiss_message_idempotent (w : World) (n : Nat) :
    (runInputs w (List.replicate (n + 1) .ClearMessage)).map
        (fun w2 => (w2.state.message_visible, w2.state.messages)) =
      some (false, w.state.messages) := by
  induction n generalizing w with
  | zero => rfl
  | succ n ih => exact ih ⟨clear_message w.state, w.fs⟩

/-- Claim C10: in `PromptSave` mode the prompt text is the
`current_file_name` field itself — `InsertChar c` immediately appends `c`
to it (treating `None` as empty) and `Backspace` immediately drops its last
character when there is one. -/
theorem c10_save_prompt_edits_path (w : World) (c : Char)
    (hdest : w.state.input_destination = .Save) :
    ((accept_input w (.NormalChar c)).map (fun w2 => w2.state.current_file_name) =
      some (some (w.state.current_file_name.getD [] ++ [c]))) ∧
    ((accept_input w .Backspace).map (fun w2 => w2.state.current_file_name) =
      some (w.state.current_file_name.map List.dropLast)) := by
  constructor <;> simp [accept_input, add_char, backspace, hdest]

/-- Claim C10, witness: typing `x` and backspacing in a save prompt whose
pending name is `"ab"`. -/
theorem c10_save_prompt_edits_path_witness :
    ((accept_input c10w (.NormalChar 'x')).map
        (fun w2 => w2.state.current_file_name) = some (some ['a', 'b', 'x'])) ∧
      ((accept_input c10w .Backspace).map
        (fun w2 => w2.state.current_file_name) = some (some ['a'])) :=
  c10_save_prompt_edits_path c10w 'x' rfl

end Editor
